import Mathlib

/-!
Shallow embedding of `passport-windows-live-token` (`src/index.js`):
the `WindowsLiveTokenStrategy` class with its `authenticate` and
`userProfile` methods, over a model of JavaScript/JSON values.

Modelling conventions:
* JSON values are the inductive `Json`; JavaScript's `undefined` is
  modelled as `none` in `Option Json` (written `JsVal`).
* JSON numbers are modelled as integers; no claim depends on
  floating-point behaviour.
* `JSON.parse` is a JavaScript runtime primitive, not code of this
  repository; theorems quantify over a `parse : String → Except String Json`
  argument standing for it.
-/

/-- A parsed JSON value.  `JSON.parse` produces exactly these shapes:
`null`, booleans, numbers, strings, arrays and objects (an object is a
finite ordered list of string-keyed fields).  `undefined` is not a JSON
value; where JavaScript code can see `undefined` we use `Option Json`. -/
inductive Json where
  | null
  | bool (b : Bool)
  | num (n : Int)
  | str (s : String)
  | arr (elems : List Json)
  | obj (fields : List (String × Json))

/-- A JavaScript value as seen by the code: a JSON value or `undefined`. -/
abbrev JsVal := Option Json

/-- JavaScript truthiness of a (non-`undefined`) value: `null`, `false`,
`0` and `""` are falsy; every other JSON value, in particular every array
and object, is truthy. -/
def Json.truthy : Json → Bool
  | .null => false
  | .bool b => b
  | .num n => n != 0
  | .str s => s != ""
  | .arr _ => true
  | .obj _ => true

/-- JavaScript truthiness of a possibly-`undefined` value: `undefined` is
falsy. -/
def jsTruthy : JsVal → Bool
  | none => false
  | some v => v.truthy

/-- Field lookup in a JSON object's field list: the value of the first
field with the given key, `none` (i.e. `undefined`) when absent. -/
def lookupJson (fields : List (String × Json)) (k : String) : JsVal :=
  (fields.find? (fun p => p.fst == k)).map Prod.snd

/-- JavaScript property read `j[k]` on a non-`null` receiver: objects
yield the field's value or `undefined`; reading a property of any other
non-`null` value (boolean, number, string, array) yields `undefined` for
the property names this code reads. -/
def Json.getOpt : Json → String → JsVal
  | .obj fields, k => lookupJson fields k
  | _, _ => none

/-- JavaScript property read as it can throw: reading any property of
`null` raises a `TypeError`.  `JSON.parse` never yields `undefined`, so
`null` is the only throwing receiver that can occur. -/
def Json.member (j : Json) (k : String) : Except String JsVal :=
  match j with
  | .null => .error "TypeError"
  | j => .ok (j.getOpt k)

/-- JavaScript `a || d` where `d` is a default: the value itself when
truthy, otherwise the default. -/
def jsOr (v : JsVal) (d : Json) : Json :=
  match v with
  | some x => if x.truthy then x else d
  | none => d

/-- JavaScript `ToNumber` on primitive values; `none` stands for `NaN`.
Numeric strings are modelled as integer literals (leading/trailing
whitespace stripped, empty string is `0`). -/
def jsToNumber : Json → Option Int
  | .null => some 0
  | .bool b => some (if b then 1 else 0)
  | .num n => some n
  | .str s => if s.trim = "" then some 0 else s.trim.toInt?
  | _ => none

mutual

/-- JavaScript `ToString` of a value, as used by string concatenation
(`'...' + v + '...'`) and by `ToPrimitive` on arrays: strings are
themselves, numbers and booleans print canonically, `null` prints `"null"`,
arrays print as their comma-joined elements, plain objects print
`"[object Object]"`. -/
def jsDisplayString : Json → String
  | .null => "null"
  | .bool b => if b then "true" else "false"
  | .num n => toString n
  | .str s => s
  | .arr xs => jsArrayToString xs
  | .obj _ => "[object Object]"

/-- `Array.prototype.toString`: elements joined with `","`, with `null`
elements contributing the empty string. -/
def jsArrayToString : List Json → String
  | [] => ""
  | [.null] => ""
  | [x] => jsDisplayString x
  | .null :: xs => "," ++ jsArrayToString xs
  | x :: xs => jsDisplayString x ++ "," ++ jsArrayToString xs

end

/-- JavaScript `ToString` of a possibly-`undefined` value, as used by
string concatenation: `undefined` prints `"undefined"`. -/
def jsValToString : JsVal → String
  | none => "undefined"
  | some v => jsDisplayString v

/-- Whether a value is of reference type (array or object), compared by
reference identity under `==`. -/
def Json.isRef : Json → Bool
  | .arr _ => true
  | .obj _ => true
  | _ => false

/-- JavaScript `ToPrimitive` with default hint on a reference value:
arrays via their `toString`, plain objects as `"[object Object]"`. -/
def Json.toPrimitive : Json → Json
  | .arr xs => .str (jsArrayToString xs)
  | .obj _ => .str "[object Object]"
  | p => p

/-- JavaScript loose equality `==` on primitive (non-reference) values:
`null` equals only `null`/`undefined`; two strings compare by value;
otherwise both sides are coerced with `ToNumber` and compared, with `NaN`
equal to nothing. -/
def jsEqPrim : Json → Json → Bool
  | .null, .null => true
  | .null, _ => false
  | _, .null => false
  | .str a, .str b => a == b
  | a, b => jsToNumber a == jsToNumber b && (jsToNumber a).isSome

/-- JavaScript loose equality `==` between two parsed-JSON values.  Two
reference values compare by reference identity: the operands compared by
this code always come from distinct fields of a freshly parsed JSON
value, hence are distinct references, so the comparison is `false`.  A
reference value against `null` is `false`; against another primitive it
is coerced with `ToPrimitive` first. -/
def jsEq (a b : Json) : Bool :=
  if a.isRef && b.isRef then false
  else if a.isRef then
    match b with
    | .null => false
    | _ => jsEqPrim a.toPrimitive b
  else if b.isRef then
    match a with
    | .null => false
    | _ => jsEqPrim a b.toPrimitive
  else jsEqPrim a b

/-! ## NormalizedProfile construction (`userProfile`, `src/index.js`) -/

/-- One entry of `profile.emails`: `{value, type, primary?}`.  The JS code
sets `primary: true` on matching entries and leaves the property absent
otherwise; an absent/unset `primary` is modelled as `false`. -/
structure EmailEntry where
  value : Json
  type : String
  primary : Bool

/-- `profile.name`: `{familyName, givenName}`.  The fields are the raw
values `json.last_name` / `json.first_name` when truthy and the empty
string otherwise, so their type is `Json`. -/
structure PersonName where
  familyName : Json
  givenName : Json

/-- One entry of `profile.photos`: `{value}`. -/
structure Photo where
  value : String

/-- The canonical profile shape built by `userProfile`. -/
structure NormalizedProfile where
  provider : String
  id : JsVal
  username : Json
  displayName : Json
  name : PersonName
  emails : List EmailEntry
  photos : List Photo
  _raw : String
  _json : Json

/-- `profile.emails.push({value: v, type: ty})` guarded by
`if (json.emails && v)`: the entry is appended exactly when the read
value `v` is defined and truthy (`v` is `none` when `json.emails` itself
was falsy, so the conjunction is folded into `v`). -/
def pushIf (es : List EmailEntry) (v : JsVal) (ty : String) : List EmailEntry :=
  match v with
  | some x => if x.truthy then es ++ [⟨x, ty, false⟩] else es
  | none => es

/-- The read `json.emails && json.emails[cat]`, given the value
`emailsF = json.emails`: `undefined` when `json.emails` is absent or
falsy, otherwise the category's value.  A truthy receiver is never
`null`, so this read cannot throw. -/
def truthyAccess (emailsF : JsVal) (cat : String) : JsVal :=
  match emailsF with
  | some e => if e.truthy then e.getOpt cat else none
  | none => none

/-- The four guarded pushes building `profile.emails`, in source order:
account, personal (tagged `home`), business (tagged `work`), other. -/
def categoryEmails (emailsF : JsVal) : List EmailEntry :=
  pushIf (pushIf (pushIf (pushIf [] (truthyAccess emailsF "account") "account")
    (truthyAccess emailsF "personal") "home")
    (truthyAccess emailsF "business") "work")
    (truthyAccess emailsF "other") "other"

/-- The marking loop: every entry whose `value` compares `==` to the
preferred email gets `primary: true`; the others are left unchanged. -/
def markPrimary (pref : Json) (es : List EmailEntry) : List EmailEntry :=
  es.map (fun e => if jsEq e.value pref then { e with primary := true } else e)

/-- `profile.emails` as built from the value of `json.emails`: the four
category pushes, then, when `json.emails && json.emails.preferred` is
truthy, the marking loop. -/
def profileEmails (emailsF : JsVal) : List EmailEntry :=
  let es := categoryEmails emailsF
  match truthyAccess emailsF "preferred" with
  | some p => if p.truthy then markPrimary p es else es
  | none => es

/-- The object literal built by `userProfile` from the parsed body
`json` and the raw body string.  Every field read in the literal
dereferences `json` itself; the first read (`json.id`) throws a
`TypeError` precisely when `json` is `null`, and after it succeeds the
remaining reads of the same receiver cannot throw, so they use the total
`getOpt`.  The thrown case is propagated as `Except.error` to the
enclosing `try`/`catch`. -/
def buildProfile (body : String) (json : Json) : Except String NormalizedProfile :=
  match json.member "id" with
  | .error e => .error e
  | .ok idv =>
    .ok {
      provider := "windows-live"
      id := idv
      username := jsOr (json.getOpt "username") (.str "")
      displayName := jsOr (json.getOpt "name") (.str "")
      name := {
        familyName := jsOr (json.getOpt "last_name") (.str "")
        givenName := jsOr (json.getOpt "first_name") (.str "") }
      emails := profileEmails (json.getOpt "emails")
      photos := [⟨"https://apis.live.net/v5.0/" ++ jsValToString idv ++ "/picture"⟩]
      _raw := body
      _json := json }

/-! ## `userProfile`'s error handling -/

/-- The transport error object passed by `this._oauth2.get` to its
callback; the only property this code reads is `error.data`, which may
be absent. -/
structure TransportError where
  data : Option String

/-- The outcome of `this._oauth2.get(url, accessToken, cb)` as delivered
to the callback: a truthy transport error, or a response body. -/
inductive OAuthGetResult where
  | err (e : TransportError)
  | ok (body : String)

/-- The second constructor argument of `InternalOAuthError`: the
provider's `errorJSON.error.code` on the parsed branch, or the raw
transport error on the generic branch. -/
inductive ErrDetail where
  | code (c : JsVal)
  | transport (e : TransportError)

/-- An error delivered to `userProfile`'s `done` callback: an
`InternalOAuthError(message, detail)`, or a JavaScript exception
(`SyntaxError` from `JSON.parse`, `TypeError` from a `null` read)
re-thrown to `done(e)` by the `catch` block. -/
inductive UserProfileError where
  | internalOAuth (message : JsVal) (detail : ErrDetail)
  | thrown (e : String)

/-- The transport-error branch of `userProfile`: try
`JSON.parse(error.data)` and read `errorJSON.error.message` /
`errorJSON.error.code`; any failure inside the `try` (absent `data`,
parse failure, `errorJSON` being `null`, or `errorJSON.error` being
`null`/`undefined`) falls to the `catch`, which wraps the raw transport
error with the generic message. -/
def parseProviderError (parse : String → Except String Json) (e : TransportError) :
    UserProfileError :=
  let generic : UserProfileError :=
    .internalOAuth (some (.str "Failed to fetch user profile")) (.transport e)
  match e.data with
  | none => generic
  | some d =>
    match parse d with
    | .error _ => generic
    | .ok errorJSON =>
      match errorJSON.member "error" with
      | .error _ => generic
      | .ok none => generic
      | .ok (some eo) =>
        match eo.member "message", eo.member "code" with
        | .ok m, .ok c => .internalOAuth m (.code c)
        | _, _ => generic

/-- `userProfile(accessToken, done)` from the point where the
`_oauth2.get` callback fires, as a function of the `JSON.parse`
primitive and the transport outcome: `Except.error` models `done(err)`
with no profile, `Except.ok` models `done(null, profile)`. -/
def userProfile (parse : String → Except String Json) (res : OAuthGetResult) :
    Except UserProfileError NormalizedProfile :=
  match res with
  | .err e => .error (parseProviderError parse e)
  | .ok body =>
    match parse body with
    | .error e => .error (.thrown e)
    | .ok json =>
      match buildProfile body json with
      | .error e => .error (.thrown e)
      | .ok p => .ok p

/-! ## `authenticate` (`src/index.js`) -/

/-- The inbound request as read by `authenticate`: `req.body`,
`req.query` and `req.headers` may each be absent (`undefined`), and when
present map field names to values.  `authenticate` only ever
dereferences `body` and `query`; `headers` is carried to show it is not
consulted. -/
structure Request where
  body : Option (List (String × Json))
  query : Option (List (String × Json))
  headers : Option (List (String × Json))

/-- The read `req.body[f]` guarded by `req.body && …`: `undefined` when
the container is absent, otherwise the field's value. -/
def lookupReq (container : Option (List (String × Json))) (f : String) : JsVal :=
  match container with
  | none => none
  | some fields => lookupJson fields f

/-- Line 51/52 of `src/index.js`:
`(req.body && req.body[f]) || (req.query && req.query[f])` — the body
value when truthy, otherwise the query read (which may itself be falsy
or `undefined`). -/
def extractField (req : Request) (f : String) : JsVal :=
  let fromBody := lookupReq req.body f
  if jsTruthy fromBody then fromBody else lookupReq req.query f

/-- One call of the application verify callback's continuation
`done(error, user, info)`; omitted arguments are `undefined`. -/
structure DoneCall where
  error : JsVal
  user : JsVal
  info : JsVal

/-- The argument list `authenticate` passes to the verify callback:
with the request prepended when `passReqToCallback` is set, without it
otherwise.  `P` is the profile type handed over by `_loadUserProfile`. -/
inductive VerifyArgs (P : Type) where
  | withReq (req : Request) (accessToken : JsVal) (refreshToken : JsVal) (profile : P)
  | noReq (accessToken : JsVal) (refreshToken : JsVal) (profile : P)

/-- The result of `this._loadUserProfile(accessToken, done)`: `done`
called with a truthy error, or with a profile.  `E` is the error type,
`P` the profile type. -/
inductive LoadResult (E P : Type) where
  | err (e : E)
  | ok (profile : P)

/-- The outcome `authenticate` signals to the framework.  The `error`
payload is either the profile-loading error (`Sum.inl`) or the value the
verify callback passed as its error argument (`Sum.inr`). -/
inductive AuthOutcome (E : Type) where
  | success (user : JsVal) (info : JsVal)
  | fail (info : JsVal)
  | error (e : E ⊕ JsVal)

/-- The inner `verified` closure of `authenticate`: a truthy error goes
to `this.error`, a falsy user to `this.fail(info)`, otherwise
`this.success(user, info)`. -/
def verified {E : Type} (d : DoneCall) : AuthOutcome E :=
  if jsTruthy d.error then .error (.inr d.error)
  else if jsTruthy d.user then .success d.user d.info
  else .fail d.info

/-- `authenticate(req, options)` of `WindowsLiveTokenStrategy`, as a
function of the configured field names, the `passReqToCallback` flag,
the inherited `_loadUserProfile` hook and the application verify
callback (the callback is modelled by the single `done` call it makes).
The token and refresh token are extracted from body-then-query; a falsy
token short-circuits to `fail` with the message naming the configured
field; otherwise the profile is loaded, a loading error is signalled as
`error`, and on success the verify callback runs with or without the
request according to `passReqToCallback`. -/
def authenticate {E P : Type} (accessTokenField refreshTokenField : String)
    (passReqToCallback : Bool)
    (loadUserProfile : JsVal → LoadResult E P)
    (verify : VerifyArgs P → DoneCall)
    (req : Request) : AuthOutcome E :=
  let accessToken := extractField req accessTokenField
  let refreshToken := extractField req refreshTokenField
  if jsTruthy accessToken then
    match loadUserProfile accessToken with
    | .err e => .error (.inl e)
    | .ok profile =>
      if passReqToCallback then
        verified (verify (.withReq req accessToken refreshToken profile))
      else
        verified (verify (.noReq accessToken refreshToken profile))
  else
    .fail (some (.obj [("message", .str ("You should provide " ++ accessTokenField))]))

/-- Modelled from the spec: the inherited `_loadUserProfile` hook of the
OAuth2 strategy collaborator (passport-oauth, not in this repository)
invokes `userProfile` and passes its callback values through unchanged
— "invokes profile loading; on profile-loading error, signals an
`error` outcome".  `transport` maps the access token to the outcome of
the `_oauth2.get` call that `userProfile` performs with it. -/
def loadWith (parse : String → Except String Json)
    (transport : JsVal → OAuthGetResult) (accessToken : JsVal) :
    LoadResult UserProfileError NormalizedProfile :=
  match userProfile parse (transport accessToken) with
  | .ok p => .ok p
  | .error e => .err e

/-! ## Accessors on the raw response, for stating properties -/

/-- Truthiness filter on a value: the value when defined and truthy,
`undefined` otherwise. -/
def truthyOpt (v : JsVal) : JsVal :=
  match v with
  | some x => if x.truthy then some x else none
  | none => none

/-- The raw response's `emails[cat]` value, regardless of truthiness:
defined whenever both `emails` and the category field are present. -/
def emailCategory (json : Json) (cat : String) : JsVal :=
  match json.getOpt "emails" with
  | some e => e.getOpt cat
  | none => none

/-- The provider's preferred email as the code observes it: the value of
`json.emails.preferred` when `json.emails` and the value itself are
truthy, `undefined` otherwise. -/
def preferredEmail (json : Json) : JsVal :=
  truthyOpt (truthyAccess (json.getOpt "emails") "preferred")

/-- The `(value, type)` pair of an email entry, forgetting the `primary`
flag. -/
def entryKey (e : EmailEntry) : Json × String :=
  (e.value, e.type)

/-- The category-to-type mapping of the normalizer, in source order. -/
def emailCategoryTypes : List (String × String) :=
  [("account", "account"), ("personal", "home"), ("business", "work"), ("other", "other")]

/-- The `(value, type)` pairs the spec predicts for a raw response: one
per category whose value is present and truthy, in the fixed order, with
the mapped type tag. -/
def expectedEmails (json : Json) : List (Json × String) :=
  emailCategoryTypes.filterMap (fun ct =>
    match truthyOpt (truthyAccess (json.getOpt "emails") ct.fst) with
    | some v => some (v, ct.snd)
    | none => none)

/-- The number of entries flagged `primary` in a profile. -/
def countPrimary (p : NormalizedProfile) : Nat :=
  (p.emails.filter (fun e => e.primary)).length

/-- The success condition of the provider-error `try` block: the
transport error's `data` is present, parses as JSON, and the parsed
value has a defined non-`null` `error` member, so that reading
`.message` and `.code` succeeds; the extracted pair is returned. -/
def extractProviderError (parse : String → Except String Json) (e : TransportError) :
    Option (JsVal × JsVal) :=
  match e.data with
  | none => none
  | some d =>
    match parse d with
    | .error _ => none
    | .ok errorJSON =>
      match errorJSON.member "error" with
      | .error _ => none
      | .ok none => none
      | .ok (some eo) =>
        match eo.member "message", eo.member "code" with
        | .ok m, .ok c => some (m, c)
        | _, _ => none

/-! ## Concrete instances used by witnesses and counterexamples -/

/-- A concrete instance of the `JSON.parse` primitive, faithful to
JavaScript on the finitely many strings the concrete examples below
use: `"{}"` parses to the empty object, anything else used below is not
valid JSON and raises a `SyntaxError`. -/
def jsonParseAt : String → Except String Json := fun s =>
  if s = "\x7b\x7d" then .ok (.obj []) else .error "SyntaxError"

/-- A profile loader that always reports an error, for instantiating
theorems that never reach profile loading. -/
def loadStub : JsVal → LoadResult Unit Unit := fun _ => .err ()

/-- A verify callback that calls `done()` with all arguments omitted. -/
def verifyStub {P : Type} : VerifyArgs P → DoneCall := fun _ => ⟨none, none, none⟩

/-- A request with no body, query or headers. -/
def reqEmpty : Request := ⟨none, none, none⟩

/-- A profile loader that succeeds with a unit profile. -/
def loadOkUnit : JsVal → LoadResult Unit Unit := fun _ => .ok ()

/-- A request carrying the default access-token field in its body. -/
def reqTok : Request := ⟨some [("access_token", .str "T")], none, none⟩

/-- A verify callback whose `done` call supplies a user and an info
object. -/
def verifyOkStub : VerifyArgs Unit → DoneCall :=
  fun _ => ⟨none, some (.str "u"), some (.str "i")⟩

/-- A raw response with only an `id` field. -/
def jsonIdOnly : Json := .obj [("id", .str "42")]

/-- The profile `buildProfile` produces for `jsonIdOnly`. -/
def profileIdOnly : NormalizedProfile :=
  { provider := "windows-live"
    id := some (.str "42")
    username := .str ""
    displayName := .str ""
    name := ⟨.str "", .str ""⟩
    emails := []
    photos := [⟨"https://apis.live.net/v5.0/42/picture"⟩]
    _raw := "B"
    _json := jsonIdOnly }

/-- A transport stub answering every fetch with a non-JSON body. -/
def transportBad : JsVal → OAuthGetResult := fun _ => .ok "not json"

/-- The transport error used in the C6 counterexample: its payload is
the valid JSON text `"{}"`. -/
def teEmptyObj : TransportError := ⟨some "\x7b\x7d"⟩

/-- A raw response in which two categories repeat the preferred
address. -/
def jsonDupEmails : Json :=
  .obj [("emails", .obj [("account", .str "a@b.c"), ("personal", .str "a@b.c"),
    ("preferred", .str "a@b.c")])]

/-- A raw response whose `emails.account` is present but empty. -/
def jsonEmptyAccount : Json := .obj [("emails", .obj [("account", .str "")])]

/-- A raw response whose preferred email matches its account email. -/
def jsonPreferred : Json :=
  .obj [("emails", .obj [("account", .str "a@b.c"), ("preferred", .str "a@b.c")])]

/-- The profile `buildProfile` produces for `jsonPreferred`. -/
def profilePreferred : NormalizedProfile :=
  { provider := "windows-live"
    id := none
    username := .str ""
    displayName := .str ""
    name := ⟨.str "", .str ""⟩
    emails := [⟨.str "a@b.c", "account", true⟩]
    photos := [⟨"https://apis.live.net/v5.0/undefined/picture"⟩]
    _raw := "W"
    _json := jsonPreferred }

/-- A raw response with a personal and a business email. -/
def jsonTwoCats : Json :=
  .obj [("emails", .obj [("personal", .str "p@x"), ("business", .str "b@x")])]

/-- The profile `buildProfile` produces for `jsonTwoCats`. -/
def profileTwoCats : NormalizedProfile :=
  { provider := "windows-live"
    id := none
    username := .str ""
    displayName := .str ""
    name := ⟨.str "", .str ""⟩
    emails := [⟨.str "p@x", "home", false⟩, ⟨.str "b@x", "work", false⟩]
    photos := [⟨"https://apis.live.net/v5.0/undefined/picture"⟩]
    _raw := "W"
    _json := jsonTwoCats }

/-! ## Claims about `authenticate` -/

/-- C3: for every request in which the configured access-token field is
set in neither the body nor the query parameters, `authenticate` signals
the `fail` outcome (not `error`, not an exception) carrying the message
`"You should provide access_token"` with the configured field name
substituted. -/
theorem authenticate_missing_token {E P : Type} (f rf : String) (prc : Bool)
    (load : JsVal → LoadResult E P) (verify : VerifyArgs P → DoneCall) (req : Request)
    (hb : lookupReq req.body f = none) (hq : lookupReq req.query f = none) :
    authenticate f rf prc load verify req =
      .fail (some (.obj [("message", .str ("You should provide " ++ f))])) := by
  simp [authenticate, extractField, hb, hq, jsTruthy]

/-- Witness for C3: the empty request fails with the message naming the
default field name. -/
theorem authenticate_missing_token_witness :
    authenticate "access_token" "refresh_token" false loadStub verifyStub reqEmpty =
      .fail (some (.obj [("message", .str ("You should provide " ++ "access_token"))])) :=
  authenticate_missing_token "access_token" "refresh_token" false loadStub verifyStub
    reqEmpty rfl rfl

/-- C10: for every request in which the access-token field is bound to a
falsy value (empty string, `false`, `0`, `null`) in both body and query,
`authenticate` treats the token as absent and signals the `fail` outcome
with the missing-credential message, exactly as when the field is not
set at all. -/
theorem authenticate_falsy_token {E P : Type} (f rf : String) (prc : Bool)
    (load : JsVal → LoadResult E P) (verify : VerifyArgs P → DoneCall) (req : Request)
    (hb : jsTruthy (lookupReq req.body f) = false)
    (hq : jsTruthy (lookupReq req.query f) = false) :
    authenticate f rf prc load verify req =
      .fail (some (.obj [("message", .str ("You should provide " ++ f))])) := by
  simp [authenticate, extractField, hb, hq]

/-- Witness for C10: the field bound to `""` in the body and to `false`
in the query fails with the missing-credential message. -/
theorem authenticate_falsy_token_witness :
    authenticate "access_token" "refresh_token" false loadStub verifyStub
      ⟨some [("access_token", .str "")], some [("access_token", .bool false)], none⟩ =
      .fail (some (.obj [("message", .str ("You should provide " ++ "access_token"))])) :=
  authenticate_falsy_token "access_token" "refresh_token" false loadStub verifyStub
    ⟨some [("access_token", .str "")], some [("access_token", .bool false)], none⟩ rfl rfl

/-- C4: the access token is read from the request body first and from
the query parameters second under the configured field name — a truthy
body value wins, a falsy body read falls back to the query read — and no
other request location is consulted: the extracted token and, with the
request not otherwise used (`passReqToCallback` unset), the whole
outcome of `authenticate` are invariant under the request's headers. -/
theorem authenticate_token_source {E P : Type} (f rf : String)
    (load : JsVal → LoadResult E P) (verify : VerifyArgs P → DoneCall)
    (b q hs hs' : Option (List (String × Json))) :
    (∀ v : Json, lookupReq b f = some v → v.truthy = true →
      extractField ⟨b, q, hs⟩ f = some v)
    ∧ (jsTruthy (lookupReq b f) = false →
      extractField ⟨b, q, hs⟩ f = lookupReq q f)
    ∧ extractField ⟨b, q, hs⟩ f = extractField ⟨b, q, hs'⟩ f
    ∧ authenticate f rf false load verify ⟨b, q, hs⟩ =
      authenticate f rf false load verify ⟨b, q, hs'⟩ := by
  refine ⟨?_, ?_, rfl, rfl⟩
  · intro v hv ht
    simp [extractField, hv, jsTruthy, ht]
  · intro h
    simp [extractField, h]

/-- Witness for C4: a truthy body value shadows the query value; an
empty-string body value falls back to the query value. -/
theorem authenticate_token_source_witness :
    extractField ⟨some [("access_token", .str "B")], some [("access_token", .str "Q")], none⟩
      "access_token" = some (.str "B")
    ∧ extractField ⟨some [("access_token", .str "")], some [("access_token", .str "Q")], none⟩
      "access_token" = some (.str "Q") :=
  ⟨(authenticate_token_source "access_token" "refresh_token" loadStub verifyStub
      (some [("access_token", .str "B")]) (some [("access_token", .str "Q")]) none none).1
      (.str "B") rfl rfl,
   ((authenticate_token_source "access_token" "refresh_token" loadStub verifyStub
      (some [("access_token", .str "")]) (some [("access_token", .str "Q")]) none none).2.1
      rfl).trans rfl⟩

/-- C8: on a successful profile load, the verify callback is invoked
with `(request, accessToken, refreshToken, profile, done)` when
`passReqToCallback` is set, and with
`(accessToken, refreshToken, profile, done)` — the request omitted —
otherwise; the outcome is the `verified` interpretation of the `done`
call it makes. -/
theorem authenticate_verify_arguments {E P : Type} (f rf : String)
    (load : JsVal → LoadResult E P) (verify : VerifyArgs P → DoneCall)
    (req : Request) (tok : Json) (p : P)
    (ht : extractField req f = some tok) (htt : tok.truthy = true)
    (hl : load (some tok) = .ok p) :
    authenticate f rf true load verify req =
      verified (verify (.withReq req (some tok) (extractField req rf) p))
    ∧ authenticate f rf false load verify req =
      verified (verify (.noReq (some tok) (extractField req rf) p)) := by
  constructor <;> simp [authenticate, ht, htt, hl, jsTruthy]

/-- Witness for C8: on the concrete request, the outcome is the
`verified` interpretation of the callback's `done` call, with the
request prepended exactly when `passReqToCallback` is set. -/
theorem authenticate_verify_arguments_witness :
    authenticate "access_token" "refresh_token" true loadOkUnit verifyStub reqTok =
      verified (verifyStub
        (.withReq reqTok (some (.str "T")) (extractField reqTok "refresh_token") ()))
    ∧ authenticate "access_token" "refresh_token" false loadOkUnit verifyStub reqTok =
      verified (verifyStub
        (.noReq (some (.str "T")) (extractField reqTok "refresh_token") ())) :=
  authenticate_verify_arguments "access_token" "refresh_token" loadOkUnit verifyStub
    reqTok (.str "T") () rfl rfl rfl

/-- C7: for every invocation of the verify callback's
`done(error, user, info)`, a truthy `error` yields the `error` outcome
carrying it; otherwise a falsy `user` yields the `fail` outcome carrying
`info`; otherwise the `success` outcome carries `(user, info)` exactly
as supplied by the callback. -/
theorem authenticate_done_interpretation {E P : Type} (f rf : String) (prc : Bool)
    (load : JsVal → LoadResult E P) (verify : VerifyArgs P → DoneCall)
    (req : Request) (tok : Json) (p : P) (d : DoneCall)
    (ht : extractField req f = some tok) (htt : tok.truthy = true)
    (hl : load (some tok) = .ok p)
    (hd : verify (if prc then .withReq req (some tok) (extractField req rf) p
                  else .noReq (some tok) (extractField req rf) p) = d) :
    authenticate f rf prc load verify req =
      (if jsTruthy d.error then .error (.inr d.error)
       else if jsTruthy d.user then .success d.user d.info
       else .fail d.info) := by
  cases prc <;> simp at hd <;> simp [authenticate, ht, htt, hl, verified, hd, jsTruthy]

/-- Witness for C7: a `done(null, user, info)` call turns into
`success(user, info)` unchanged. -/
theorem authenticate_done_interpretation_witness :
    authenticate "access_token" "refresh_token" false loadOkUnit verifyOkStub reqTok =
      .success (some (.str "u")) (some (.str "i")) :=
  (authenticate_done_interpretation "access_token" "refresh_token" false loadOkUnit
    verifyOkStub reqTok (.str "T") () ⟨none, some (.str "u"), some (.str "i")⟩
    rfl rfl rfl rfl).trans rfl

/-- C9: profile construction is deterministic — two runs of the
normalizing map on the same raw body and parsed JSON yield structurally
identical profiles; the map is a pure function of its input with no
hidden state. -/
theorem buildProfile_deterministic (body : String) (json : Json)
    (p₁ p₂ : NormalizedProfile)
    (h₁ : buildProfile body json = .ok p₁) (h₂ : buildProfile body json = .ok p₂) :
    p₁ = p₂ := by
  rw [h₁] at h₂
  exact Except.ok.inj h₂

/-- Witness for C9: two runs on the fixed fixture produce the same
profile. -/
theorem buildProfile_deterministic_witness :
    buildProfile "B" jsonIdOnly = .ok profileIdOnly ∧ profileIdOnly = profileIdOnly :=
  ⟨rfl, buildProfile_deterministic "B" jsonIdOnly profileIdOnly profileIdOnly rfl rfl⟩

/-- C5: for every response body the `JSON.parse` primitive rejects,
`userProfile` hands its callback the parse error and no profile, and
`authenticate`, reaching the profile load with any truthy token whose
fetch returns that body, propagates it as the `error` outcome. -/
theorem userProfile_parse_error (parse : String → Except String Json) (body e : String)
    (hp : parse body = .error e) :
    userProfile parse (.ok body) = .error (.thrown e)
    ∧ ∀ (f rf : String) (prc : Bool) (transport : JsVal → OAuthGetResult)
        (verify : VerifyArgs NormalizedProfile → DoneCall) (req : Request),
        jsTruthy (extractField req f) = true →
        transport (extractField req f) = .ok body →
        authenticate f rf prc (loadWith parse transport) verify req =
          .error (.inl (.thrown e)) := by
  constructor
  · simp [userProfile, hp]
  · intro f rf prc transport verify req h1 h2
    simp [authenticate, h1, loadWith, h2, userProfile, hp]

/-- Witness for C5: the body `"not json"` yields the thrown parse error
from `userProfile` and the `error` outcome from `authenticate`. -/
theorem userProfile_parse_error_witness :
    userProfile jsonParseAt (.ok "not json") = .error (.thrown "SyntaxError")
    ∧ authenticate "access_token" "refresh_token" false (loadWith jsonParseAt transportBad)
        verifyStub reqTok = .error (.inl (.thrown "SyntaxError")) :=
  ⟨(userProfile_parse_error jsonParseAt "not json" "SyntaxError" rfl).1,
   (userProfile_parse_error jsonParseAt "not json" "SyntaxError" rfl).2
     "access_token" "refresh_token" false transportBad verifyStub reqTok rfl rfl⟩

/-- C6 (amended): on a transport error, `userProfile` reports an
internal OAuth error and never a profile: when the error payload is
present, parses as JSON, and the parsed value's `error` member is a
defined non-`null` value — so that reading `.message` and `.code`
succeeds — the error carries the provider's message and code; in every
other case (absent payload, parse failure, or a payload without a
readable `error` object) it carries the generic message
`"Failed to fetch user profile"` wrapping the raw transport error. -/
theorem userProfile_transport_error (parse : String → Except String Json)
    (te : TransportError) :
    userProfile parse (.err te) =
      .error (match extractProviderError parse te with
        | some mc => .internalOAuth mc.fst (.code mc.snd)
        | none => .internalOAuth (some (.str "Failed to fetch user profile"))
            (.transport te)) := by
  rcases te with ⟨data⟩
  simp only [userProfile, parseProviderError, extractProviderError]
  cases data with
  | none => rfl
  | some d =>
    cases hp : parse d with
    | error e => simp [hp]
    | ok errorJSON =>
      cases h : errorJSON.member "error" with
      | error e => simp [hp, h]
      | ok eo =>
        cases eo with
        | none => simp [hp, h]
        | some eobj =>
          cases hm : eobj.member "message" with
          | error e =>
            cases hc : eobj.member "code" with
            | error e2 => simp [hp, h, hm, hc]
            | ok c => simp [hp, h, hm, hc]
          | ok m =>
            cases hc : eobj.member "code" with
            | error e2 => simp [hp, h, hm, hc]
            | ok c => simp [hp, h, hm, hc]

/-- Counterexample to C6 as stated: the payload `"{}"` parses as JSON,
yet the resulting error carries the generic message wrapping the raw
transport error, not a message and code extracted from the payload
(extracting them would read a property of `undefined` and throw). -/
theorem userProfile_transport_error_counterexample :
    jsonParseAt "\x7b\x7d" = .ok (.obj [])
    ∧ userProfile jsonParseAt (.err teEmptyObj) =
      .error (.internalOAuth (some (.str "Failed to fetch user profile"))
        (.transport teEmptyObj)) :=
  ⟨rfl, rfl⟩

/-! ## Helper lemmas on the email list -/

theorem pushIf_primary_false (es : List EmailEntry) (v : JsVal) (ty : String)
    (h : ∀ e ∈ es, e.primary = false) :
    ∀ e ∈ pushIf es v ty, e.primary = false := by
  intro e he
  cases v with
  | none => exact h e he
  | some x =>
    by_cases hx : x.truthy
    · simp only [pushIf, hx, if_true, List.mem_append, List.mem_singleton] at he
      rcases he with he | he
      · exact h e he
      · subst he; rfl
    · simp only [pushIf, hx, Bool.false_eq_true, if_false] at he
      exact h e he

theorem categoryEmails_primary_false (ef : JsVal) :
    ∀ e ∈ categoryEmails ef, e.primary = false := by
  unfold categoryEmails
  apply pushIf_primary_false
  apply pushIf_primary_false
  apply pushIf_primary_false
  apply pushIf_primary_false
  intro e he
  simp at he

theorem markPrimary_primary (pref : Json) (es : List EmailEntry)
    (h : ∀ e ∈ es, e.primary = false) :
    ∀ e ∈ markPrimary pref es, (e.primary = true ↔ jsEq e.value pref = true) := by
  intro e he
  simp only [markPrimary, List.mem_map] at he
  obtain ⟨a, ha, rfl⟩ := he
  by_cases hj : jsEq a.value pref
  · simp [hj]
  · simp [hj, h a ha]

theorem buildProfile_emails_eq (body : String) (json : Json) (p : NormalizedProfile)
    (h : buildProfile body json = .ok p) :
    p.emails = profileEmails (json.getOpt "emails") := by
  unfold buildProfile at h
  cases hm : json.member "id" with
  | error e => rw [hm] at h; cases h
  | ok idv => rw [hm] at h; cases h; rfl

/-! ## Claims about the email normalization -/

/-- Counterexample to C1 as stated: when two categories repeat the
preferred address, the built profile flags two entries `primary`, not at
most one. -/
theorem buildProfile_two_primary :
    (buildProfile "" jsonDupEmails).map countPrimary = .ok 2 := rfl

/-- C1 (amended): an email entry of the built profile is marked
`primary: true` exactly when its value compares equal (JavaScript `==`)
to the raw response's truthy `emails.preferred` value — possibly several
entries when categories repeat the preferred address — and when
`preferred` is absent or falsy no entry is marked. -/
theorem buildProfile_primary_iff (body : String) (json : Json) (p : NormalizedProfile)
    (h : buildProfile body json = .ok p) (e : EmailEntry) (he : e ∈ p.emails) :
    (e.primary = true ↔
      ∃ pref, preferredEmail json = some pref ∧ jsEq e.value pref = true) := by
  rw [buildProfile_emails_eq body json p h] at he
  simp only [profileEmails] at he
  cases hta : truthyAccess (json.getOpt "emails") "preferred" with
  | none =>
    rw [hta] at he
    have hf := categoryEmails_primary_false (json.getOpt "emails") e he
    simp [preferredEmail, hta, truthyOpt, hf]
  | some pr =>
    rw [hta] at he
    by_cases hpt : pr.truthy
    · simp only [hpt, if_true] at he
      have hmk := markPrimary_primary pr (categoryEmails (json.getOpt "emails"))
        (categoryEmails_primary_false (json.getOpt "emails")) e he
      rw [hmk]
      simp [preferredEmail, hta, truthyOpt, hpt]
    · simp only [hpt, Bool.false_eq_true, if_false] at he
      have hf := categoryEmails_primary_false (json.getOpt "emails") e he
      simp [preferredEmail, hta, truthyOpt, hpt, hf]

/-- Witness for C1 (amended): on the fixture whose account email equals
`preferred`, the single entry is marked and the equivalence holds. -/
theorem buildProfile_primary_iff_witness :
    buildProfile "W" jsonPreferred = .ok profilePreferred
    ∧ ((⟨.str "a@b.c", "account", true⟩ : EmailEntry).primary = true ↔
      ∃ pref, preferredEmail jsonPreferred = some pref ∧
        jsEq (⟨.str "a@b.c", "account", true⟩ : EmailEntry).value pref = true) :=
  ⟨rfl, buildProfile_primary_iff "W" jsonPreferred profilePreferred rfl
    ⟨.str "a@b.c", "account", true⟩ (List.mem_singleton.mpr rfl)⟩

/-- Counterexample to C2 as stated: `emails.account` is present in the
raw response (bound to the empty string), yet the built profile's
`emails` array has no entry for it. -/
theorem buildProfile_empty_category :
    emailCategory jsonEmptyAccount "account" = some (.str "")
    ∧ (buildProfile "" jsonEmptyAccount).map NormalizedProfile.emails = .ok [] :=
  ⟨rfl, rfl⟩

theorem pushIf_map_key (es : List EmailEntry) (v : JsVal) (ty : String) :
    (pushIf es v ty).map entryKey =
      es.map entryKey ++ (match truthyOpt v with
        | some x => [(x, ty)]
        | none => []) := by
  cases v with
  | none => simp [pushIf, truthyOpt]
  | some x => by_cases hx : x.truthy <;> simp [pushIf, truthyOpt, hx, entryKey]

theorem markPrimary_map_key (pref : Json) (es : List EmailEntry) :
    (markPrimary pref es).map entryKey = es.map entryKey := by
  simp only [markPrimary, List.map_map]
  apply List.map_congr_left
  intro e he
  by_cases hj : jsEq e.value pref <;> simp [entryKey, hj]

theorem categoryEmails_map_key (json : Json) :
    (categoryEmails (json.getOpt "emails")).map entryKey = expectedEmails json := by
  unfold categoryEmails expectedEmails emailCategoryTypes
  rw [pushIf_map_key, pushIf_map_key, pushIf_map_key, pushIf_map_key]
  cases h1 : truthyOpt (truthyAccess (json.getOpt "emails") "account") <;>
  cases h2 : truthyOpt (truthyAccess (json.getOpt "emails") "personal") <;>
  cases h3 : truthyOpt (truthyAccess (json.getOpt "emails") "business") <;>
  cases h4 : truthyOpt (truthyAccess (json.getOpt "emails") "other") <;>
    simp [h1, h2, h3, h4]

/-- C2 (amended): the built profile's emails array contains one entry
per email category whose value is present and truthy in the raw
response and no others, in source order, with the category-to-type
mapping account→account, personal→home, business→work, other→other;
categories present with a falsy value (such as the empty string)
produce no entry. -/
theorem buildProfile_email_list (body : String) (json : Json) (p : NormalizedProfile)
    (h : buildProfile body json = .ok p) :
    p.emails.map entryKey = expectedEmails json := by
  rw [buildProfile_emails_eq body json p h]
  simp only [profileEmails]
  cases hta : truthyAccess (json.getOpt "emails") "preferred" with
  | none => exact categoryEmails_map_key json
  | some pr =>
    by_cases hpt : pr.truthy
    · simp only [hpt, if_true]
      rw [markPrimary_map_key]
      exact categoryEmails_map_key json
    · simp only [hpt, Bool.false_eq_true, if_false]
      exact categoryEmails_map_key json

/-- Witness for C2 (amended): the fixture with a personal and a business
email yields exactly the two mapped entries, in order. -/
theorem buildProfile_email_list_witness :
    buildProfile "W" jsonTwoCats = .ok profileTwoCats
    ∧ profileTwoCats.emails.map entryKey = expectedEmails jsonTwoCats :=
  ⟨rfl, buildProfile_email_list "W" jsonTwoCats profileTwoCats rfl⟩
